import Mathlib

/-!
Shallow embedding of the tezedge prechecker action surface
(`shell_automaton/src/prechecker/prechecker_actions.rs`): the enabling
conditions (`is_enabled`) of the prechecker actions, the data they inspect,
and a step relation over those actions.

Machine integers: the protocol number is a Rust `u8`; its arithmetic is
embedded as `Nat` with an explicit `% 256` where overflow matters.
-/

namespace Tezedge.Prechecker

/-- Modelled from the spec: the resolution state of the next-block protocol
slot (`SupportedProtocolState`, whose defining module is not among the shown
sources; the variants `None`, `Requesting` and `Ready` are pinned by the
pattern matches in `prechecker_actions.rs`). Block hashes and resolved
protocols are abstracted as `Nat`. -/
inductive SupportedProtocolState where
  | None
  | Requesting (blockHash : Nat)
  | Ready (protocol : Nat)
deriving DecidableEq

/-- Modelled from the spec: the per-operation precheck state machine
(`PrecheckerOperationState`, whose defining module is not among the shown
sources; the spec lists the variants and `prechecker_actions.rs` matches
`Init`, `PendingProtocolVersion`, `Applied`, `Refused` and `ProtocolNeeded`).
Payloads (decoded contents, rights, hashes, errors) are abstracted as `Nat`. -/
inductive PrecheckerOperationState where
  | Init
  | PendingProtocolVersion
  | ProtocolVersionReady
  | Decoding
  | Decoded (contents : Nat)
  | PendingEndorsingRights (contents : Nat)
  | EndorsingRightsReady (contents : Nat) (rights : Nat)
  | ValidatingEndorsement (contents : Nat) (rights : Nat)
  | PendingBlockApplication (level : Nat)
  | Applied (hash : Nat) (protocolData : Nat)
  | Refused (hash : Nat) (protocolData : Nat) (err : Nat)
  | ProtocolNeeded
  | Error (err : Nat)
deriving DecidableEq

/-- Modelled from the spec: one record of the Operation Table; only its
`state` field is inspected by the enabling conditions. -/
structure PrecheckerOperation where
  state : PrecheckerOperationState
deriving DecidableEq

/-- Lookup in the Operation Table (`state.prechecker.operations.get(&key)`),
embedded as first-match lookup in an association list with `Nat` keys. -/
def operationsGet (ops : List (Nat × PrecheckerOperation)) (key : Nat) :
    Option PrecheckerOperation :=
  match ops with
  | [] => none
  | (k, op) :: rest => if k == key then some op else operationsGet rest key

/-- Modelled from the spec: the prechecker substate, with the Operation Table
and the single next-block protocol slot
(`Option<(proto_number: u8, resolution: SupportedProtocolState)>`);
the field accesses in `prechecker_actions.rs` pin this shape. -/
structure PrecheckerState where
  operations : List (Nat × PrecheckerOperation)
  next_protocol : Option (Nat × SupportedProtocolState)
deriving DecidableEq

/-- Modelled from the spec: the global automaton state, of which the
enabling conditions only read the `prechecker` substate. -/
structure State where
  prechecker : PrecheckerState
deriving DecidableEq

/-- Modelled from the spec: the initial state — empty Operation Table, no
next-protocol slot. -/
def initialState : State := ⟨⟨[], none⟩⟩

/-! Actions and their enabling conditions, translated from
`prechecker_actions.rs`. -/

structure PrecheckerGetProtocolVersionAction where
  key : Nat

/-- From `prechecker_actions.rs` lines 165-175: enabled iff the operation
under `key` exists and its state matches `PrecheckerOperationState::Init`. -/
def PrecheckerGetProtocolVersionAction.is_enabled
    (a : PrecheckerGetProtocolVersionAction) (state : State) : Bool :=
  match operationsGet state.prechecker.operations a.key with
  | some op =>
    match op.state with
    | PrecheckerOperationState.Init => true
    | _ => false
  | none => false

structure PrecheckerProtocolVersionReadyAction where
  key : Nat

/-- From `prechecker_actions.rs` lines 182-192: enabled iff the operation
under `key` exists and its state matches `PendingProtocolVersion { .. }`. -/
def PrecheckerProtocolVersionReadyAction.is_enabled
    (a : PrecheckerProtocolVersionReadyAction) (state : State) : Bool :=
  match operationsGet state.prechecker.operations a.key with
  | some op =>
    match op.state with
    | PrecheckerOperationState.PendingProtocolVersion => true
    | _ => false
  | none => false

structure PrecheckerDecodeOperationAction where
  key : Nat

/-- From `prechecker_actions.rs` lines 379-384: `let _ = state; true`. -/
def PrecheckerDecodeOperationAction.is_enabled
    (_ : PrecheckerDecodeOperationAction) (_ : State) : Bool :=
  true

structure PrecheckerOperationDecodedAction where
  key : Nat
  contents : Nat

/-- From `prechecker_actions.rs` lines 385-390: `let _ = state; true`. -/
def PrecheckerOperationDecodedAction.is_enabled
    (_ : PrecheckerOperationDecodedAction) (_ : State) : Bool :=
  true

structure PrecheckerEndorsingRightsReadyAction where
  key : Nat
  endorsing_rights : Nat

/-- From `prechecker_actions.rs` lines 409-414: `let _ = state; true`. -/
def PrecheckerEndorsingRightsReadyAction.is_enabled
    (_ : PrecheckerEndorsingRightsReadyAction) (_ : State) : Bool :=
  true

structure PrecheckerValidateEndorsementAction where
  key : Nat

/-- From `prechecker_actions.rs` lines 415-420: `let _ = state; true`. -/
def PrecheckerValidateEndorsementAction.is_enabled
    (_ : PrecheckerValidateEndorsementAction) (_ : State) : Bool :=
  true

structure PrecheckerSetNextBlockProtocolAction where
  proto : Nat

/-- From `prechecker_actions.rs` lines 288-296:
`next_protocol.as_ref().map_or(true, |(proto, _)| proto + 1 == self.proto)`;
the `u8` addition is embedded as `(proto + 1) % 256`. -/
def PrecheckerSetNextBlockProtocolAction.is_enabled
    (a : PrecheckerSetNextBlockProtocolAction) (state : State) : Bool :=
  match state.prechecker.next_protocol with
  | none => true
  | some (proto, _) => (proto + 1) % 256 == a.proto

structure PrecheckerQueryNextBlockProtocolAction where
  proto : Nat
  block_hash : Nat

/-- From `prechecker_actions.rs` lines 304-316: enabled if no slot exists, or
`(*proto == self.proto && matches!(state, SupportedProtocolState::None))
|| proto + 1 == self.proto`; `u8` addition embedded as `(proto + 1) % 256`. -/
def PrecheckerQueryNextBlockProtocolAction.is_enabled
    (a : PrecheckerQueryNextBlockProtocolAction) (state : State) : Bool :=
  match state.prechecker.next_protocol with
  | none => true
  | some (proto, st) =>
    (proto == a.proto &&
      (match st with
       | SupportedProtocolState.None => true
       | _ => false))
      || (proto + 1) % 256 == a.proto

structure PrecheckerNextBlockProtocolReadyAction where
  block_hash : Nat
  supported_protocol : Nat

/-- From `prechecker_actions.rs` lines 324-328: enabled iff the slot exists
and matches `Requesting(hash) if hash == &self.block_hash`. -/
def PrecheckerNextBlockProtocolReadyAction.is_enabled
    (a : PrecheckerNextBlockProtocolReadyAction) (state : State) : Bool :=
  match state.prechecker.next_protocol with
  | some (_, SupportedProtocolState.Requesting h) => h == a.block_hash
  | _ => false

structure PrecheckerPruneOperationAction where
  key : Nat

/-- From `prechecker_actions.rs` lines 359-371: enabled iff the operation
under `key` exists and its state is `Applied`, `Refused` or
`ProtocolNeeded`. -/
def PrecheckerPruneOperationAction.is_enabled
    (a : PrecheckerPruneOperationAction) (state : State) : Bool :=
  match operationsGet state.prechecker.operations a.key with
  | some op =>
    match op.state with
    | PrecheckerOperationState.Applied _ _ => true
    | PrecheckerOperationState.Refused _ _ _ => true
    | PrecheckerOperationState.ProtocolNeeded => true
    | _ => false
  | none => false

/-! JSON values and `PrecheckerErrored::is_endorsement`, from
`prechecker_actions.rs` lines 74-89. `serde_json::Value` is embedded as an
inductive; objects are association lists with exact-key lookup. -/

inductive Json where
  | null
  | bool (b : Bool)
  | num (n : Int)
  | str (s : String)
  | arr (elems : List Json)
  | obj (fields : List (String × Json))

/-- `serde_json::Value::as_object`: the field list when the value is an
object, `None` otherwise. -/
def Json.asObject : Json → Option (List (String × Json))
  | Json.obj fields => some fields
  | _ => none

/-- `serde_json::Map::get`: exact-key lookup in an object's field list. -/
def jsonObjectGet : List (String × Json) → String → Option Json
  | [], _ => none
  | (k, v) :: rest, key => if k == key then some v else jsonObjectGet rest key

/-- `serde_json::Value::as_str`: the string when the value is a string,
`None` otherwise. -/
def Json.asStr : Json → Option String
  | Json.str s => some s
  | _ => none

/-- From `prechecker_actions.rs` lines 74-79: the `Refused` response payload;
only `protocol_data` matters to `is_endorsement`. -/
structure PrecheckerErrored where
  hash : Nat
  protocol_data : Json
  error : String

/-- From `prechecker_actions.rs` lines 82-89:
`self.protocol_data.as_object()?.get("kind")?.as_str()?` then matching
`"endorsement" | "endorsement_with_slot" => true, _ => false`, all inside
`Some(...)`. -/
def PrecheckerErrored.is_endorsement (e : PrecheckerErrored) : Option Bool :=
  match e.protocol_data.asObject with
  | none => none
  | some o =>
    match jsonObjectGet o "kind" with
    | none => none
    | some v =>
      match v.asStr with
      | none => none
      | some s => some (s == "endorsement" || s == "endorsement_with_slot")

/-- The "kind" of a protocol-data JSON value: `some s` exactly when the value
is an object, has a "kind" field, and that field is the string `s`. -/
def protocolDataKind (d : Json) : Option String :=
  match d.asObject with
  | none => none
  | some o =>
    match jsonObjectGet o "kind" with
    | none => none
    | some v => v.asStr

/-! The step relation: an action is accepted iff its enabling condition
holds against the current state, and acceptance applies the reducer. The
enabling conditions come from `prechecker_actions.rs` above; the reducer is
not among the shown sources and is modelled from the spec. -/

/-- The prechecker actions that the claims' traces use, with the payloads the
enabling conditions and reducer inspect. -/
inductive PrecheckerAction where
  | precheckOperationInit (key : Nat)
  | getProtocolVersion (key : Nat)
  | protocolVersionReady (key : Nat)
  | decodeOperation (key : Nat)
  | operationDecoded (key : Nat) (contents : Nat)
  | getEndorsingRights (key : Nat)
  | endorsingRightsReady (key : Nat) (rights : Nat)
  | validateEndorsement (key : Nat)
  | setNextBlockProtocol (proto : Nat)
  | queryNextBlockProtocol (proto : Nat) (blockHash : Nat)
  | nextBlockProtocolReady (blockHash : Nat) (protocol : Nat)
  | pruneOperation (key : Nat)
deriving DecidableEq

/-- Dispatch to each action's `is_enabled` from `prechecker_actions.rs`:
`PrecheckerPrecheckOperationInitAction`, `PrecheckerDecodeOperationAction`,
`PrecheckerOperationDecodedAction`, `PrecheckerGetEndorsingRightsAction`,
`PrecheckerEndorsingRightsReadyAction` and
`PrecheckerValidateEndorsementAction` are unconditionally `true` there. -/
def actionEnabled (a : PrecheckerAction) (s : State) : Bool :=
  match a with
  | PrecheckerAction.precheckOperationInit _ => true
  | PrecheckerAction.getProtocolVersion key =>
    (PrecheckerGetProtocolVersionAction.mk key).is_enabled s
  | PrecheckerAction.protocolVersionReady key =>
    (PrecheckerProtocolVersionReadyAction.mk key).is_enabled s
  | PrecheckerAction.decodeOperation key =>
    (PrecheckerDecodeOperationAction.mk key).is_enabled s
  | PrecheckerAction.operationDecoded key contents =>
    (PrecheckerOperationDecodedAction.mk key contents).is_enabled s
  | PrecheckerAction.getEndorsingRights _ => true
  | PrecheckerAction.endorsingRightsReady key rights =>
    (PrecheckerEndorsingRightsReadyAction.mk key rights).is_enabled s
  | PrecheckerAction.validateEndorsement key =>
    (PrecheckerValidateEndorsementAction.mk key).is_enabled s
  | PrecheckerAction.setNextBlockProtocol proto =>
    (PrecheckerSetNextBlockProtocolAction.mk proto).is_enabled s
  | PrecheckerAction.queryNextBlockProtocol proto blockHash =>
    (PrecheckerQueryNextBlockProtocolAction.mk proto blockHash).is_enabled s
  | PrecheckerAction.nextBlockProtocolReady blockHash protocol =>
    (PrecheckerNextBlockProtocolReadyAction.mk blockHash protocol).is_enabled s
  | PrecheckerAction.pruneOperation key =>
    (PrecheckerPruneOperationAction.mk key).is_enabled s

/-- Insert (or replace) an entry of the Operation Table. -/
def operationsInsert (ops : List (Nat × PrecheckerOperation)) (key : Nat)
    (op : PrecheckerOperation) : List (Nat × PrecheckerOperation) :=
  match ops with
  | [] => [(key, op)]
  | (k, v) :: rest =>
    if k == key then (k, op) :: rest else (k, v) :: operationsInsert rest key op

/-- Remove an entry of the Operation Table. -/
def operationsRemove (ops : List (Nat × PrecheckerOperation)) (key : Nat) :
    List (Nat × PrecheckerOperation) :=
  match ops with
  | [] => []
  | (k, v) :: rest =>
    if k == key then rest else (k, v) :: operationsRemove rest key

/-- Apply a partial state transition to the operation under `key`; an
undefined transition leaves the entry unchanged. -/
def operationsUpdate (ops : List (Nat × PrecheckerOperation)) (key : Nat)
    (f : PrecheckerOperationState → Option PrecheckerOperationState) :
    List (Nat × PrecheckerOperation) :=
  match ops with
  | [] => []
  | (k, v) :: rest =>
    if k == key then
      match f v.state with
      | some st2 => (k, PrecheckerOperation.mk st2) :: rest
      | none => (k, v) :: rest
    else (k, v) :: operationsUpdate rest key f

/-- Modelled from the spec: the reducer (transition table) of the prechecker,
whose source module is not among the shown files. Per-operation transitions
follow the documented predecessors (section 4.1 of the spec): Init →
PendingProtocolVersion → ProtocolVersionReady → Decoding → Decoded →
PendingEndorsingRights → EndorsingRightsReady → ValidatingEndorsement; slot
actions create/replace the slot (`None` state on set, `Requesting` on query)
and resolve `Requesting` to `Ready`; prune removes the entry. Illegal
transitions leave the state unchanged. -/
def precheckerReduce (a : PrecheckerAction) (s : State) : State :=
  match a with
  | PrecheckerAction.precheckOperationInit key =>
    ⟨⟨operationsInsert s.prechecker.operations key
        (PrecheckerOperation.mk PrecheckerOperationState.Init),
      s.prechecker.next_protocol⟩⟩
  | PrecheckerAction.getProtocolVersion key =>
    ⟨⟨operationsUpdate s.prechecker.operations key (fun st =>
        match st with
        | PrecheckerOperationState.Init =>
          some PrecheckerOperationState.PendingProtocolVersion
        | _ => none),
      s.prechecker.next_protocol⟩⟩
  | PrecheckerAction.protocolVersionReady key =>
    ⟨⟨operationsUpdate s.prechecker.operations key (fun st =>
        match st with
        | PrecheckerOperationState.PendingProtocolVersion =>
          some PrecheckerOperationState.ProtocolVersionReady
        | _ => none),
      s.prechecker.next_protocol⟩⟩
  | PrecheckerAction.decodeOperation key =>
    ⟨⟨operationsUpdate s.prechecker.operations key (fun st =>
        match st with
        | PrecheckerOperationState.ProtocolVersionReady =>
          some PrecheckerOperationState.Decoding
        | _ => none),
      s.prechecker.next_protocol⟩⟩
  | PrecheckerAction.operationDecoded key contents =>
    ⟨⟨operationsUpdate s.prechecker.operations key (fun st =>
        match st with
        | PrecheckerOperationState.Decoding =>
          some (PrecheckerOperationState.Decoded contents)
        | _ => none),
      s.prechecker.next_protocol⟩⟩
  | PrecheckerAction.getEndorsingRights key =>
    ⟨⟨operationsUpdate s.prechecker.operations key (fun st =>
        match st with
        | PrecheckerOperationState.Decoded c =>
          some (PrecheckerOperationState.PendingEndorsingRights c)
        | _ => none),
      s.prechecker.next_protocol⟩⟩
  | PrecheckerAction.endorsingRightsReady key rights =>
    ⟨⟨operationsUpdate s.prechecker.operations key (fun st =>
        match st with
        | PrecheckerOperationState.PendingEndorsingRights c =>
          some (PrecheckerOperationState.EndorsingRightsReady c rights)
        | _ => none),
      s.prechecker.next_protocol⟩⟩
  | PrecheckerAction.validateEndorsement key =>
    ⟨⟨operationsUpdate s.prechecker.operations key (fun st =>
        match st with
        | PrecheckerOperationState.EndorsingRightsReady c r =>
          some (PrecheckerOperationState.ValidatingEndorsement c r)
        | _ => none),
      s.prechecker.next_protocol⟩⟩
  | PrecheckerAction.setNextBlockProtocol proto =>
    ⟨⟨s.prechecker.operations,
      some (proto % 256, SupportedProtocolState.None)⟩⟩
  | PrecheckerAction.queryNextBlockProtocol proto blockHash =>
    ⟨⟨s.prechecker.operations,
      some (proto % 256, SupportedProtocolState.Requesting blockHash)⟩⟩
  | PrecheckerAction.nextBlockProtocolReady _ protocol =>
    match s.prechecker.next_protocol with
    | some (n, SupportedProtocolState.Requesting _) =>
      ⟨⟨s.prechecker.operations, some (n, SupportedProtocolState.Ready protocol)⟩⟩
    | _ => s
  | PrecheckerAction.pruneOperation key =>
    ⟨⟨operationsRemove s.prechecker.operations key, s.prechecker.next_protocol⟩⟩

/-- One step of the automaton: accepted iff enabled, then reduced. -/
def step (s : State) (a : PrecheckerAction) : Option State :=
  if actionEnabled a s then some (precheckerReduce a s) else none

/-- Run a list of actions; `none` when some action along the way is not
enabled (the whole trace is accepted iff the result is `some`). -/
def runTrace (s : State) : List PrecheckerAction → Option State
  | [] => some s
  | a :: rest =>
    match step s a with
    | some s2 => runTrace s2 rest
    | none => none

/-- The states visited while running a trace, the start state included;
stops early when an action is not enabled. -/
def statesAlong (s : State) : List PrecheckerAction → List State
  | [] => [s]
  | a :: rest =>
    match step s a with
    | some s2 => s :: statesAlong s2 rest
    | none => [s]

/-- Whether the next-protocol slot is resolved (`Ready`). -/
def slotReady (s : State) : Bool :=
  match s.prechecker.next_protocol with
  | some (_, SupportedProtocolState.Ready _) => true
  | _ => false

/-- The five-action trace that drives operation 0 from registration to
`Decoded` while the next-protocol slot stays empty. -/
def gatingTrace : List PrecheckerAction :=
  [PrecheckerAction.precheckOperationInit 0,
   PrecheckerAction.getProtocolVersion 0,
   PrecheckerAction.protocolVersionReady 0,
   PrecheckerAction.decodeOperation 0,
   PrecheckerAction.operationDecoded 0 7]

/-- Auxiliary for C8: `is_endorsement` is the kind of the protocol data,
mapped through the endorsement-kind test. -/
theorem is_endorsement_eq_kindMap (e : PrecheckerErrored) :
    e.is_endorsement = (protocolDataKind e.protocol_data).map
      (fun s => s == "endorsement" || s == "endorsement_with_slot") := by
  unfold PrecheckerErrored.is_endorsement protocolDataKind
  cases ho : e.protocol_data.asObject with
  | none => rfl
  | some o =>
    cases hk : jsonObjectGet o "kind" with
    | none => simp [hk]
    | some v =>
      cases hs : v.asStr with
      | none => simp [hk, hs]
      | some s => simp [hk, hs]

/-! Theorems for the claims. -/

/-- C1 counterexample: with the operation under key 0 in state `Init` — not
the decode-eligible `ProtocolVersionReady` — `PrecheckerDecodeOperationAction`
is nonetheless enabled, so "enabled iff in the documented predecessor state"
fails for it. -/
theorem decodeOperation_guard_counterexample :
    (PrecheckerDecodeOperationAction.mk 0).is_enabled
      ⟨⟨[(0, PrecheckerOperation.mk PrecheckerOperationState.Init)], none⟩⟩ = true
    ∧ operationsGet [(0, PrecheckerOperation.mk PrecheckerOperationState.Init)] 0 =
        some (PrecheckerOperation.mk PrecheckerOperationState.Init)
    ∧ PrecheckerOperationState.Init ≠ PrecheckerOperationState.ProtocolVersionReady := by
  refine ⟨rfl, rfl, by decide⟩

/-- C1 amended: only `PrecheckerGetProtocolVersionAction` (predecessor
`Init`) and `PrecheckerProtocolVersionReadyAction` (predecessor
`PendingProtocolVersion`) have the claimed predecessor-state iff guards;
`PrecheckerDecodeOperationAction`, `PrecheckerOperationDecodedAction` and
`PrecheckerValidateEndorsementAction` are enabled in every state. -/
theorem perOperation_guards_characterization :
    (∀ (a : PrecheckerGetProtocolVersionAction) (s : State),
        a.is_enabled s = true ↔
          ∃ op, operationsGet s.prechecker.operations a.key = some op
            ∧ op.state = PrecheckerOperationState.Init)
    ∧ (∀ (a : PrecheckerProtocolVersionReadyAction) (s : State),
        a.is_enabled s = true ↔
          ∃ op, operationsGet s.prechecker.operations a.key = some op
            ∧ op.state = PrecheckerOperationState.PendingProtocolVersion)
    ∧ (∀ (a : PrecheckerDecodeOperationAction) (s : State), a.is_enabled s = true)
    ∧ (∀ (a : PrecheckerOperationDecodedAction) (s : State), a.is_enabled s = true)
    ∧ (∀ (a : PrecheckerValidateEndorsementAction) (s : State),
        a.is_enabled s = true) := by
  refine ⟨fun a s => ?_, fun a s => ?_, fun _ _ => rfl, fun _ _ => rfl,
    fun _ _ => rfl⟩
  · cases hget : operationsGet s.prechecker.operations a.key with
    | none => simp [PrecheckerGetProtocolVersionAction.is_enabled, hget]
    | some op =>
      obtain ⟨st⟩ := op
      cases st <;> simp [PrecheckerGetProtocolVersionAction.is_enabled, hget]
  · cases hget : operationsGet s.prechecker.operations a.key with
    | none => simp [PrecheckerProtocolVersionReadyAction.is_enabled, hget]
    | some op =>
      obtain ⟨st⟩ := op
      cases st <;> simp [PrecheckerProtocolVersionReadyAction.is_enabled, hget]

/-- C2 counterexample: from the initial (reachable) state,
`SetNextBlockProtocol(255)` is accepted, and then `SetNextBlockProtocol(0)`
is also accepted because the `u8` successor check wraps (255 + 1 ≡ 0), even
though 0 is neither greater than 255 nor 255 + 1 — so the stored proto
sequence 255, 0 is not strictly increasing by 1. -/
theorem setNextBlockProtocol_wrap_trace_counterexample :
    step initialState (PrecheckerAction.setNextBlockProtocol 255) =
      some ⟨⟨[], some (255, SupportedProtocolState.None)⟩⟩
    ∧ step ⟨⟨[], some (255, SupportedProtocolState.None)⟩⟩
        (PrecheckerAction.setNextBlockProtocol 0) =
      some ⟨⟨[], some (0, SupportedProtocolState.None)⟩⟩
    ∧ ¬ 255 < 0 ∧ 0 ≠ 255 + 1 := by decide

/-- C2 amended: every `SetNextBlockProtocol` accepted while a slot exists
stores exactly the `u8` successor `(p + 1) % 256` of the current
`proto_number` `p` (in resolution state `None`); hence the stored numbers
increase by exactly 1 at every accepted step except at the single wrap
255 → 0. -/
theorem setNextBlockProtocol_mod_succ (s s2 : State) (proto p : Nat)
    (st : SupportedProtocolState)
    (hslot : s.prechecker.next_protocol = some (p, st))
    (hstep : step s (PrecheckerAction.setNextBlockProtocol proto) = some s2) :
    proto = (p + 1) % 256
    ∧ s2.prechecker.next_protocol = some (proto, SupportedProtocolState.None)
    ∧ (p < 255 → proto = p + 1) := by
  unfold step at hstep
  split at hstep
  · rename_i hen
    injection hstep with hstep
    subst hstep
    have hp : (p + 1) % 256 = proto := by
      simpa [actionEnabled, PrecheckerSetNextBlockProtocolAction.is_enabled,
        hslot, beq_iff_eq] using hen
    have hlt : proto < 256 := by omega
    refine ⟨hp.symm, ?_, fun hplt => by omega⟩
    simp [precheckerReduce, Nat.mod_eq_of_lt hlt]
  · exact absurd hstep (by simp)

/-- Witness for the amended C2: a slot at 4 accepts exactly 5 and stores it. -/
theorem setNextBlockProtocol_mod_succ_witness :
    5 = (4 + 1) % 256
    ∧ (⟨⟨[], some (5, SupportedProtocolState.None)⟩⟩ : State).prechecker.next_protocol =
        some (5, SupportedProtocolState.None)
    ∧ (4 < 255 → 5 = 4 + 1) :=
  setNextBlockProtocol_mod_succ ⟨⟨[], some (4, SupportedProtocolState.None)⟩⟩
    ⟨⟨[], some (5, SupportedProtocolState.None)⟩⟩ 5 4 SupportedProtocolState.None
    rfl (by decide)

/-- C7 counterexample: the five-action trace
init → getProtocolVersion → protocolVersionReady → decode → decoded is fully
accepted from the initial state, drives operation 0 into `Decoded 7`, and at
no visited state is the next-protocol slot `Ready` (it stays empty), so the
claimed never-invariant fails on the step relation. -/
theorem decoded_without_ready_slot_counterexample :
    runTrace initialState gatingTrace =
      some ⟨⟨[(0, PrecheckerOperation.mk (PrecheckerOperationState.Decoded 7))],
        none⟩⟩
    ∧ (statesAlong initialState gatingTrace).all (fun s => !slotReady s) = true := by
  decide

/-- C7 amended: the step relation does not enforce the gating — the actions
that advance decoding and endorsement validation (`decodeOperation`,
`operationDecoded`, `endorsingRightsReady`, `validateEndorsement`) are
enabled in every state, regardless of the protocol slot or of any rights;
only the `Init` and `PendingProtocolVersion` predecessors are guard-checked. -/
theorem gating_not_enforced_by_guards :
    ∀ (s : State) (key c r : Nat),
      actionEnabled (PrecheckerAction.decodeOperation key) s = true
      ∧ actionEnabled (PrecheckerAction.operationDecoded key c) s = true
      ∧ actionEnabled (PrecheckerAction.endorsingRightsReady key r) s = true
      ∧ actionEnabled (PrecheckerAction.validateEndorsement key) s = true :=
  fun _ _ _ _ => ⟨rfl, rfl, rfl, rfl⟩

/-- C8: `PrecheckerErrored::is_endorsement` returns `some true` exactly when
the protocol data is a JSON object whose "kind" field is the string
"endorsement" or "endorsement_with_slot", `some false` when that field is
any other string, and `none` when the data is not an object, lacks a "kind"
field, or its "kind" is not a string (i.e. `protocolDataKind` is `none`). -/
theorem is_endorsement_characterization (e : PrecheckerErrored) :
    (e.is_endorsement = some true ↔
        protocolDataKind e.protocol_data = some "endorsement"
        ∨ protocolDataKind e.protocol_data = some "endorsement_with_slot")
    ∧ (e.is_endorsement = some false ↔
        ∃ s, protocolDataKind e.protocol_data = some s
          ∧ s ≠ "endorsement" ∧ s ≠ "endorsement_with_slot")
    ∧ (e.is_endorsement = none ↔ protocolDataKind e.protocol_data = none) := by
  rw [is_endorsement_eq_kindMap]
  cases hk : protocolDataKind e.protocol_data with
  | none => simp
  | some s =>
    by_cases h1 : s = "endorsement"
    · subst h1
      simp
    · by_cases h2 : s = "endorsement_with_slot"
      · subst h2
        simp
      · simp [h1, h2]

/-- C3: `PrecheckerSetNextBlockProtocolAction {proto}` is enabled iff no
next-protocol slot exists or the slot's `proto_number + 1` (a `u8` addition)
equals `proto`; concretely, after `SetNextBlockProtocol(5)` is accepted into
an empty slot, a second `SetNextBlockProtocol(5)` is rejected while
`SetNextBlockProtocol(6)` is accepted. -/
theorem setNextBlockProtocol_enabled_iff :
    (∀ (a : PrecheckerSetNextBlockProtocolAction) (s : State),
        a.is_enabled s = true ↔
          s.prechecker.next_protocol = none
          ∨ ∃ p st, s.prechecker.next_protocol = some (p, st)
              ∧ (p + 1) % 256 = a.proto)
    ∧ step initialState (PrecheckerAction.setNextBlockProtocol 5) =
        some ⟨⟨[], some (5, SupportedProtocolState.None)⟩⟩
    ∧ (PrecheckerSetNextBlockProtocolAction.mk 5).is_enabled
        ⟨⟨[], some (5, SupportedProtocolState.None)⟩⟩ = false
    ∧ (PrecheckerSetNextBlockProtocolAction.mk 6).is_enabled
        ⟨⟨[], some (5, SupportedProtocolState.None)⟩⟩ = true := by
  refine ⟨fun a s => ?_, by decide, by decide, by decide⟩
  cases hnp : s.prechecker.next_protocol with
  | none => simp [PrecheckerSetNextBlockProtocolAction.is_enabled, hnp]
  | some pr =>
    obtain ⟨p, st⟩ := pr
    simp [PrecheckerSetNextBlockProtocolAction.is_enabled, hnp, beq_iff_eq]

/-- C4: `PrecheckerNextBlockProtocolReadyAction {block_hash, ..}` is enabled
iff the slot exists and its resolution is `Requesting(block_hash)` for that
exact hash; delivering for another hash, for a slot in `None` or `Ready`
state, or with no slot, is rejected. -/
theorem nextBlockProtocolReady_enabled_iff :
    (∀ (a : PrecheckerNextBlockProtocolReadyAction) (s : State),
        a.is_enabled s = true ↔
          ∃ p, s.prechecker.next_protocol =
            some (p, SupportedProtocolState.Requesting a.block_hash))
    ∧ (PrecheckerNextBlockProtocolReadyAction.mk 21 900).is_enabled
        ⟨⟨[], some (6, SupportedProtocolState.Requesting 20)⟩⟩ = false
    ∧ (PrecheckerNextBlockProtocolReadyAction.mk 20 900).is_enabled
        ⟨⟨[], some (6, SupportedProtocolState.Requesting 20)⟩⟩ = true
    ∧ (PrecheckerNextBlockProtocolReadyAction.mk 20 900).is_enabled
        ⟨⟨[], some (6, SupportedProtocolState.None)⟩⟩ = false
    ∧ (PrecheckerNextBlockProtocolReadyAction.mk 20 900).is_enabled
        ⟨⟨[], some (6, SupportedProtocolState.Ready 900)⟩⟩ = false
    ∧ (PrecheckerNextBlockProtocolReadyAction.mk 20 900).is_enabled
        initialState = false := by
  refine ⟨fun a s => ?_, by decide, by decide, by decide, by decide, by decide⟩
  cases hnp : s.prechecker.next_protocol with
  | none => simp [PrecheckerNextBlockProtocolReadyAction.is_enabled, hnp]
  | some pr =>
    obtain ⟨p, st⟩ := pr
    cases st <;>
      simp [PrecheckerNextBlockProtocolReadyAction.is_enabled, hnp, beq_iff_eq]

/-- C5: `PrecheckerPruneOperationAction {key}` is enabled iff the operation
under `key` exists and is in one of `Applied`, `Refused`, `ProtocolNeeded`;
every other state (`Init`, the pending/intermediate states, `Error`) and an
absent key are rejected. -/
theorem pruneOperation_enabled_iff :
    ∀ (a : PrecheckerPruneOperationAction) (s : State),
      a.is_enabled s = true ↔
        ∃ op, operationsGet s.prechecker.operations a.key = some op
          ∧ ((∃ h d, op.state = PrecheckerOperationState.Applied h d)
             ∨ (∃ h d e, op.state = PrecheckerOperationState.Refused h d e)
             ∨ op.state = PrecheckerOperationState.ProtocolNeeded) := by
  intro a s
  cases hget : operationsGet s.prechecker.operations a.key with
  | none => simp [PrecheckerPruneOperationAction.is_enabled, hget]
  | some op =>
    obtain ⟨st⟩ := op
    cases st <;> simp [PrecheckerPruneOperationAction.is_enabled, hget]

/-- C6: `PrecheckerQueryNextBlockProtocolAction {proto, ..}` is enabled iff
no slot exists, or the slot has that `proto` with resolution
`SupportedProtocolState::None`, or `proto` is the slot's `u8` successor;
with the same `proto` already `Requesting` or `Ready` it is rejected. -/
theorem queryNextBlockProtocol_enabled_iff :
    (∀ (a : PrecheckerQueryNextBlockProtocolAction) (s : State),
        a.is_enabled s = true ↔
          s.prechecker.next_protocol = none
          ∨ (∃ p, s.prechecker.next_protocol =
                some (p, SupportedProtocolState.None) ∧ p = a.proto)
          ∨ (∃ p st, s.prechecker.next_protocol = some (p, st)
              ∧ (p + 1) % 256 = a.proto))
    ∧ (PrecheckerQueryNextBlockProtocolAction.mk 6 20).is_enabled
        ⟨⟨[], some (6, SupportedProtocolState.Requesting 20)⟩⟩ = false
    ∧ (PrecheckerQueryNextBlockProtocolAction.mk 6 20).is_enabled
        ⟨⟨[], some (6, SupportedProtocolState.Ready 900)⟩⟩ = false := by
  refine ⟨fun a s => ?_, by decide, by decide⟩
  cases hnp : s.prechecker.next_protocol with
  | none => simp [PrecheckerQueryNextBlockProtocolAction.is_enabled, hnp]
  | some pr =>
    obtain ⟨p, st⟩ := pr
    cases st <;>
      simp [PrecheckerQueryNextBlockProtocolAction.is_enabled, hnp, beq_iff_eq]

/-- C9: the strict-successor check of
`PrecheckerSetNextBlockProtocolAction::is_enabled` is `u8` arithmetic
(embedded as `% 256`): with a slot whose `proto_number` is 255, `proto = 0`
is enabled (255 + 1 wraps to 0), while every `proto` in `1..=255` is
rejected. -/
theorem setNextBlockProtocol_u8_wrap (ops : List (Nat × PrecheckerOperation))
    (stSlot : SupportedProtocolState) (proto : Nat)
    (h1 : 1 ≤ proto) (h2 : proto ≤ 255) :
    (PrecheckerSetNextBlockProtocolAction.mk 0).is_enabled
      ⟨⟨ops, some (255, stSlot)⟩⟩ = true
    ∧ (PrecheckerSetNextBlockProtocolAction.mk proto).is_enabled
      ⟨⟨ops, some (255, stSlot)⟩⟩ = false := by
  constructor
  · rfl
  · simp [PrecheckerSetNextBlockProtocolAction.is_enabled]
    omega

/-- Witness for C9: the wrap theorem applied at `proto = 7` with an empty
Operation Table and an unresolved slot at 255. -/
theorem setNextBlockProtocol_u8_wrap_witness :
    (PrecheckerSetNextBlockProtocolAction.mk 0).is_enabled
      ⟨⟨[], some (255, SupportedProtocolState.None)⟩⟩ = true
    ∧ (PrecheckerSetNextBlockProtocolAction.mk 7).is_enabled
      ⟨⟨[], some (255, SupportedProtocolState.None)⟩⟩ = false :=
  setNextBlockProtocol_u8_wrap [] SupportedProtocolState.None 7
    (by decide) (by decide)

/-- C10: for a key absent from the Operation Table, the state-guarded
per-operation actions `PrecheckerGetProtocolVersionAction`,
`PrecheckerProtocolVersionReadyAction` and `PrecheckerPruneOperationAction`
are all disabled. -/
theorem absentKey_actions_disabled (s : State) (key : Nat)
    (h : operationsGet s.prechecker.operations key = none) :
    (PrecheckerGetProtocolVersionAction.mk key).is_enabled s = false
    ∧ (PrecheckerProtocolVersionReadyAction.mk key).is_enabled s = false
    ∧ (PrecheckerPruneOperationAction.mk key).is_enabled s = false := by
  refine ⟨?_, ?_, ?_⟩ <;>
    simp [PrecheckerGetProtocolVersionAction.is_enabled,
      PrecheckerProtocolVersionReadyAction.is_enabled,
      PrecheckerPruneOperationAction.is_enabled, h]

/-- Witness for C10: the disabled-on-absent-key theorem applied to the
initial (empty) state at key 0. -/
theorem absentKey_actions_disabled_witness :
    (PrecheckerGetProtocolVersionAction.mk 0).is_enabled initialState = false
    ∧ (PrecheckerProtocolVersionReadyAction.mk 0).is_enabled initialState = false
    ∧ (PrecheckerPruneOperationAction.mk 0).is_enabled initialState = false :=
  absentKey_actions_disabled initialState 0 rfl

end Tezedge.Prechecker
